import Mathlib

/-!
Shallow embedding of the MSOC deepfake-detection model
(src/src/models/msoc_all.py): the scoring and loss-fusion logic of
MSOC.loss_fn, the helper functions Average and Opposite, the epoch-end
metric aggregation of validation_epoch_end / test_epoch_end, and the
EER entry point.  Real-valued tensors are embedded as rationals (per
sample) or lists of rationals (per batch); the transcendental pieces
(BCEWithLogitsLoss, exp inside softmax, BinaryAUROC) are abstracted as
function parameters so that every definition stays executable.
-/

namespace DFDetection

/-- Average, msoc_all.py lines 25-26: sum(lst) / len(lst). -/
def Average (lst : List ℚ) : ℚ := lst.sum / (lst.length : ℚ)

/-- Opposite, msoc_all.py lines 29-32: a = a + 1; a[a > 1.5] = 0; return a.
Elementwise on the tensor, embedded as a list of rationals (1.5 = 3/2). -/
def Opposite (a : List ℚ) : List ℚ :=
  (a.map (fun x => x + 1)).map (fun x => if x > 3 / 2 then 0 else x)

/-- Output record of the threshold branch of MSOC.loss_fn (lines 172-185).
Field names follow the local variables of the source. -/
structure ThresholdFusionResult where
  train_v_value : List ℚ
  train_a_value : List ℚ
  v_value : List ℚ
  a_value : List ℚ
  train_final_value : List ℚ
  mm_loss : ℚ
  final_value : List ℚ
  preds : List ℚ
  scores : List ℚ
deriving DecidableEq

/-- Threshold branch of MSOC.loss_fn, msoc_all.py lines 172-185.
v_thr, a_thr, f_thr are self.video_threshold, self.audio_threshold,
self.final_threshold; v_score, a_score are the scores returned by the
OCSoftmax scorers, av_value is av_logits[:, 1], m_label the multimodal
label.  bce is the elementwise form of self.binary_cls =
BCEWithLogitsLoss (line 104), whose default reduction is the mean over
the batch (line 181). -/
def lossFnThreshold (bce : ℚ → ℚ → ℚ) (v_thr a_thr f_thr : ℚ)
    (v_score a_score av_value m_label : List ℚ) : ThresholdFusionResult :=
  let train_v_value := v_score.map (fun s => (s + 1) / 2)
  let train_a_value := a_score.map (fun s => (s + 1) / 2)
  let v_value := v_score.map (fun s => if s > v_thr then (1 : ℚ) else 0)
  let a_value := a_score.map (fun s => if s > a_thr then (1 : ℚ) else 0)
  let train_final_value :=
    (List.zipWith (fun x y => x + y)
      (List.zipWith (fun x y => x + y) train_v_value train_a_value) av_value).map
      (fun x => x / 3)
  let mm_loss := Average (List.zipWith bce train_final_value m_label)
  let final_value :=
    (List.zipWith (fun x y => x + y)
      (List.zipWith (fun x y => x + y) v_value a_value) av_value).map (fun x => x / 3)
  let preds := final_value.map (fun x => if x > f_thr then (1 : ℚ) else 0)
  { train_v_value := train_v_value, train_a_value := train_a_value,
    v_value := v_value, a_value := a_value,
    train_final_value := train_final_value, mm_loss := mm_loss,
    final_value := final_value, preds := preds, scores := final_value }

/-- Claim-side definition (the words of claim C1, not the code): the vote
obtained by binarizing the remapped value (score + 1) / 2 against the
modality threshold. -/
def specRemapVote (thr s : ℚ) : ℚ := if (s + 1) / 2 > thr then 1 else 0

/-- Claim-side definition (the words of claim C1, not the code): the
evaluation prediction obtained from the remapped-then-binarized votes. -/
def specRemapPred (v_thr a_thr f_thr v_s a_s av : ℚ) : ℚ :=
  if (specRemapVote v_thr v_s + specRemapVote a_thr a_s + av) / 3 > f_thr then 1
  else 0

/-- Modelled from the spec: the OCSoftmax scorer lives in loss.py, which is
not under src/.  Spec section 4.1 step 3: the score the scorer returns is
alpha * c, where c is the cosine similarity and alpha the fixed scale
(default 20, section 3). -/
def ocsoftmaxScore (alpha c : ℚ) : ℚ := alpha * c

/-- Total-loss assembly of MSOC.loss_fn, msoc_all.py lines 187-191:
loss = v_loss + a_loss + mm_loss + av_loss when self.sync, else
v_loss + a_loss + mm_loss; av_loss is self.mm_cls(av_logits, s_label),
the cross-entropy of the multimodal logits against the synchrony label. -/
def totalLoss (sync : Bool) (v_loss a_loss mm_loss av_loss : ℚ) : ℚ :=
  if sync then v_loss + a_loss + mm_loss + av_loss
  else v_loss + a_loss + mm_loss

/-- Two-class softmax (nn.Softmax(dim=1), line 122, applied line 169),
with the exponential abstracted as expf. -/
def softmax2 (expf : ℚ → ℚ) (l0 l1 : ℚ) : ℚ × ℚ :=
  (expf l0 / (expf l0 + expf l1), expf l1 / (expf l0 + expf l1))

/-- torch.argmax over the two class columns (line 170); index 1 wins only
on a strictly larger value, ties go to the first index. -/
def argmax2 (p0 p1 : ℚ) : ℚ := if p1 > p0 then 1 else 0

/-- Per-sample output of the learned-classifier branch of MSOC.loss_fn
(lines 161-171): softmax scores of the two classes, the argmax
prediction, and the final score scores[:, 1]. -/
structure LearnedFusionResult where
  score0 : ℚ
  score1 : ℚ
  pred : ℚ
  final_score : ℚ
deriving DecidableEq

/-- Learned-classifier branch of MSOC.loss_fn, msoc_all.py lines 169-171,
per sample: l0, l1 are the two logits produced by self.mm_classifier on
the stacked scores; scores = softmax(logits), preds = argmax(scores),
final score = scores[:, 1]. -/
def learnedFusion (expf : ℚ → ℚ) (l0 l1 : ℚ) : LearnedFusionResult :=
  let p := softmax2 expf l0 l1
  { score0 := p.1, score1 := p.2, pred := argmax2 p.1 p.2, final_score := p.2 }

/-- scores[numpy_targets == 1], msoc_all.py line 375 / 424: the epoch
scores whose multimodal target is 1 (the fake distribution). -/
def fakeScores (scores targets : List ℚ) : List ℚ :=
  ((scores.zip targets).filter (fun x => decide (x.2 = 1))).map Prod.fst

/-- scores[numpy_targets == 0], msoc_all.py line 375 / 424: the epoch
scores whose multimodal target is 0 (the real distribution). -/
def realScores (scores targets : List ℚ) : List ℚ :=
  ((scores.zip targets).filter (fun x => decide (x.2 = 0))).map Prod.fst

/-- False-rejection rate on the fake distribution and false-acceptance
rate on the real distribution at decision threshold t (higher score means
more fake). -/
def farFrrAt (fake genuine : List ℚ) (t : ℚ) : ℚ × ℚ :=
  ((fake.countP (fun s => decide (s ≤ t)) : ℚ) / (fake.length : ℚ),
   (genuine.countP (fun s => decide (t < s)) : ℚ) / (genuine.length : ℚ))

/-- Threshold sweep over the pooled scores, returning the mean of the two
error rates at the candidate threshold where they are closest. -/
def eerSweep (fake genuine : List ℚ) : ℚ :=
  match (fake ++ genuine).map (farFrrAt fake genuine) with
  | [] => 0
  | q :: rest =>
    let best := rest.foldl (fun b p => if |p.1 - p.2| < |b.1 - b.2| then p else b) q
    (best.1 + best.2) / 2

/-- Modelled from the spec: compute_eer lives in eval_metrics.py, which is
not under src/.  Spec section 4.5: split the scores into the fake and the
real distribution, sweep a decision threshold, and return the rate where
the false-rejection and false-acceptance curves cross; both distributions
must be non-empty, otherwise EER is undefined and must be reported as
such rather than silently defaulted — embedded as the distinguished
value none. -/
def compute_eer (fake genuine : List ℚ) : Option ℚ :=
  if fake = [] ∨ genuine = [] then none else some (eerSweep fake genuine)

/-- val_eer, msoc_all.py line 375 (identically test_eer, line 424):
compute_eer(scores[numpy_targets == 1], scores[numpy_targets == 0])[0]. -/
def val_eer (scores targets : List ℚ) : Option ℚ :=
  compute_eer (fakeScores scores targets) (realScores scores targets)

/-- Binarization applied by the torchmetrics binary metrics to a
floating-point prediction: p > 0.5 maps to 1. -/
def binarize (p : ℚ) : ℚ := if p > 1 / 2 then 1 else 0

/-- Count of (prediction, target) pairs equal to (pv, tv) after the
torchmetrics binarization of the predictions. -/
def statCount (pv tv : ℚ) (preds targets : List ℚ) : ℕ :=
  ((preds.map binarize).zip targets).countP (fun x => decide (x.1 = pv ∧ x.2 = tv))

/-- torchmetrics BinaryAccuracy (self.acc, line 111): correct pairs over
all pairs. -/
def acc (preds targets : List ℚ) : ℚ :=
  ((statCount 1 1 preds targets + statCount 0 0 preds targets : ℕ) : ℚ) /
    (((preds.map binarize).zip targets).length : ℚ)

/-- torchmetrics BinaryRecall, self.recall line 114 (recall is a Mathlib command name, hence the M suffix): TP / (TP + FN),
0 when the denominator is 0. -/
def recallM (preds targets : List ℚ) : ℚ :=
  ((statCount 1 1 preds targets : ℕ) : ℚ) /
    ((statCount 1 1 preds targets + statCount 0 1 preds targets : ℕ) : ℚ)

/-- torchmetrics BinaryPrecision (self.precisions, line 115):
TP / (TP + FP), 0 when the denominator is 0. -/
def precisions (preds targets : List ℚ) : ℚ :=
  ((statCount 1 1 preds targets : ℕ) : ℚ) /
    ((statCount 1 1 preds targets + statCount 1 0 preds targets : ℕ) : ℚ)

/-- torchmetrics BinaryF1Score (self.f1score, line 113):
2 TP / (2 TP + FP + FN), 0 when the denominator is 0. -/
def f1score (preds targets : List ℚ) : ℚ :=
  ((2 * statCount 1 1 preds targets : ℕ) : ℚ) /
    ((2 * statCount 1 1 preds targets + statCount 1 0 preds targets +
        statCount 0 1 preds targets : ℕ) : ℚ)

/-- The nine best_* fields of MSOC, initialised in __init__ lines 117-120
and assigned in validation_epoch_end lines 380-390. -/
structure BestState where
  best_loss : ℚ
  best_acc : ℚ
  best_auroc : ℚ
  best_real_f1score : ℚ
  best_real_recall : ℚ
  best_real_precision : ℚ
  best_fake_f1score : ℚ
  best_fake_recall : ℚ
  best_fake_precision : ℚ
deriving DecidableEq

/-- Best-field update of validation_epoch_end, msoc_all.py lines 363-390:
valid_loss = Average of the per-batch losses (line 364), every best_*
field assigned from the current epoch (lines 380-390); the guard
`if valid_loss <= self.best_loss` on line 379 is commented out in the
source.  auroc abstracts torchmetrics BinaryAUROC (self.auroc); old is
the state carried in from before the epoch end. -/
def validationEpochEndBest (auroc : List ℚ → List ℚ → ℚ) (old : BestState)
    (losses preds targets : List ℚ) : BestState :=
  { best_loss := Average losses
    best_acc := acc preds targets
    best_auroc := auroc preds targets
    best_real_f1score := f1score preds targets
    best_real_recall := recallM preds targets
    best_real_precision := precisions preds targets
    best_fake_f1score := f1score (Opposite preds) (Opposite targets)
    best_fake_recall := recallM (Opposite preds) (Opposite targets)
    best_fake_precision := precisions (Opposite preds) (Opposite targets) }

/-- Epoch loss of validation_epoch_end line 364 (identically
training_epoch_end line 352 and test_epoch_end line 413), with each
per-batch loss paired with its batch size; the source reads only the
losses and never the sizes. -/
def epochLossSized (batches : List (ℚ × ℕ)) : ℚ := Average (batches.map Prod.fst)

/-- Claim-side definition (the words of claim C8, not the code): the mean
of the per-batch losses weighted by batch size. -/
def sizeWeightedMean (batches : List (ℚ × ℕ)) : ℚ :=
  (batches.map (fun b => b.1 * (b.2 : ℚ))).sum /
    (((batches.map Prod.snd).sum : ℕ) : ℚ)

/-- Helper: on a tensor whose entries all lie in 0, 1, Opposite is the
elementwise complement 1 - x. -/
theorem opposite_eq_one_sub (t : List ℚ) (h : ∀ x ∈ t, x = 0 ∨ x = 1) :
    Opposite t = t.map (fun x => 1 - x) := by
  unfold Opposite
  rw [List.map_map]
  refine List.map_congr_left ?_
  intro x hx
  rcases h x hx with h0 | h1
  · subst h0; norm_num
  · subst h1; norm_num

/-- C1 counterexample.  With audio threshold 1/2 and audio score 1/5, the
vote computed by the code (line 177) is 0, while binarizing the remapped
value (1/5 + 1) / 2 = 3/5 as the claim states gives 1, and the resulting
evaluation predictions differ (0 versus 1 on the same batch).  Moreover
the remap of line 173-174 is applied to the score the scorer returns,
which by the spec scorer contract is alpha-scaled: at alpha = 20 and
cosine 1/10 the code remap yields 3/2, not the remap 11/20 of the
unscaled cosine. -/
theorem vote_binarizes_raw_score_counterexample :
    (lossFnThreshold (fun _ _ => 0) (1 / 2) (1 / 2) (1 / 2)
        [1 / 10] [1 / 5] [0] [0]).a_value = [0] ∧
    specRemapVote (1 / 2) (1 / 5) = 1 ∧
    (lossFnThreshold (fun _ _ => 0) (1 / 2) (1 / 2) (1 / 2)
        [1 / 10] [1 / 5] [0] [0]).preds = [0] ∧
    specRemapPred (1 / 2) (1 / 2) (1 / 2) (1 / 10) (1 / 5) 0 = 1 ∧
    (ocsoftmaxScore 20 (1 / 10) + 1) / 2 = 3 / 2 ∧
    ((1 / 10 : ℚ) + 1) / 2 = 11 / 20 ∧
    (3 / 2 : ℚ) ≠ 11 / 20 := by
  refine ⟨?_, ?_, ?_, ?_, ?_, ?_, ?_⟩ <;>
    norm_num [lossFnThreshold, specRemapVote, specRemapPred, ocsoftmaxScore,
      Average]

/-- C1 (amended): in threshold-fusion mode the remapped value
(score + 1) / 2 of each unimodal score feeds only the training fusion
loss, while the binary vote used in the evaluation prediction binarizes
the raw score directly against the modality-specific threshold. -/
theorem vote_binarizes_raw_score_amended (bce : ℚ → ℚ → ℚ)
    (v_thr a_thr f_thr v_s a_s av m : ℚ) :
    (lossFnThreshold bce v_thr a_thr f_thr [v_s] [a_s] [av] [m]).a_value =
      [if a_s > a_thr then (1 : ℚ) else 0] ∧
    (lossFnThreshold bce v_thr a_thr f_thr [v_s] [a_s] [av] [m]).v_value =
      [if v_s > v_thr then (1 : ℚ) else 0] ∧
    (lossFnThreshold bce v_thr a_thr f_thr [v_s] [a_s] [av] [m]).preds =
      [if ((if v_s > v_thr then (1 : ℚ) else 0) +
            (if a_s > a_thr then (1 : ℚ) else 0) + av) / 3 > f_thr then (1 : ℚ)
        else 0] ∧
    (lossFnThreshold bce v_thr a_thr f_thr [v_s] [a_s] [av] [m]).mm_loss =
      bce (((v_s + 1) / 2 + (a_s + 1) / 2 + av) / 3) m := by
  refine ⟨rfl, rfl, rfl, ?_⟩
  simp [lossFnThreshold, Average]

/-- C2: the epoch EER is computed by splitting the epoch scores into the
fake distribution (target = 1) and the real distribution (target = 0); if
either distribution is empty the result is the distinguished undefined
value none, never a defaulted number, and otherwise it is defined. -/
theorem eer_undefined_on_empty_distribution (scores targets : List ℚ) :
    (fakeScores scores targets = [] ∨ realScores scores targets = [] →
      val_eer scores targets = none) ∧
    (fakeScores scores targets ≠ [] → realScores scores targets ≠ [] →
      val_eer scores targets ≠ none) := by
  unfold val_eer compute_eer
  constructor
  · intro h
    simp [h]
  · intro h1 h2
    simp [h1, h2]

/-- C2 witness: a concrete epoch whose real distribution is empty yields
the undefined EER value. -/
theorem eer_undefined_on_empty_distribution_witness :
    realScores [1 / 2] [1] = [] ∧ val_eer [1 / 2] [1] = none :=
  ⟨by decide,
    (eer_undefined_on_empty_distribution [1 / 2] [1]).1 (Or.inr (by decide))⟩

/-- C3: on a tensor whose entries all lie in 0, 1, Opposite is the
elementwise complement 1 - x, and hence an involution. -/
theorem opposite_complement_involution (t : List ℚ)
    (h : ∀ x ∈ t, x = 0 ∨ x = 1) :
    Opposite t = t.map (fun x => 1 - x) ∧ Opposite (Opposite t) = t := by
  have h1 := opposite_eq_one_sub t h
  refine ⟨h1, ?_⟩
  have h2 : ∀ x ∈ Opposite t, x = 0 ∨ x = 1 := by
    rw [h1]
    intro x hx
    rcases List.mem_map.mp hx with ⟨y, hy, rfl⟩
    rcases h y hy with h0 | h0 <;> subst h0 <;> norm_num
  rw [opposite_eq_one_sub _ h2, h1, List.map_map]
  have hc : ∀ x ∈ t, ((fun x => 1 - x) ∘ fun x : ℚ => 1 - x) x = id x := by
    intro x _
    simp
  rw [List.map_congr_left hc, List.map_id]

/-- C3 witness: the complement identity and the involution evaluated on
the concrete binary tensor [0, 1, 1, 0]. -/
theorem opposite_complement_involution_witness :
    (∀ x ∈ ([0, 1, 1, 0] : List ℚ), x = 0 ∨ x = 1) ∧
    (Opposite [0, 1, 1, 0] = ([0, 1, 1, 0] : List ℚ).map (fun x => 1 - x) ∧
      Opposite (Opposite [0, 1, 1, 0]) = [0, 1, 1, 0]) :=
  ⟨by decide, opposite_complement_involution [0, 1, 1, 0] (by decide)⟩

/-- C4: in threshold-fusion mode the evaluation prediction is 1 exactly
when the average of the three votes strictly exceeds final_threshold; in
particular the boundary batch with audio score 9/10 (vote 1), visual
score 1/10 (vote 0), av logit 1/2 and all thresholds 1/2 averages to
exactly 1/2 and is predicted 0. -/
theorem threshold_pred_strict_inequality (bce : ℚ → ℚ → ℚ)
    (v_thr a_thr f_thr v_s a_s av m : ℚ) :
    ((lossFnThreshold bce v_thr a_thr f_thr [v_s] [a_s] [av] [m]).preds =
        [(1 : ℚ)] ↔
      ((if v_s > v_thr then (1 : ℚ) else 0) +
          (if a_s > a_thr then (1 : ℚ) else 0) + av) / 3 > f_thr) ∧
    (lossFnThreshold bce (1 / 2) (1 / 2) (1 / 2)
        [1 / 10] [9 / 10] [1 / 2] [m]).preds = [(0 : ℚ)] := by
  constructor
  · show [if _ > f_thr then (1 : ℚ) else 0] = [(1 : ℚ)] ↔ _
    constructor
    · intro hp
      by_contra hgt
      rw [if_neg hgt] at hp
      exact absurd (List.head_eq_of_cons_eq hp) (by norm_num)
    · intro hgt
      rw [if_pos hgt]
  · norm_num [lossFnThreshold]

/-- C4 witness: the theorem applied at concrete inputs — with all three
votes at 1 and final threshold 1/2 the prediction is 1, and the boundary
batch is predicted 0. -/
theorem threshold_pred_strict_inequality_witness :
    (lossFnThreshold (fun _ _ => 0) (1 / 2) (1 / 2) (1 / 2)
        [1] [1] [1] [0]).preds = [(1 : ℚ)] ∧
    (lossFnThreshold (fun _ _ => 0) (1 / 2) (1 / 2) (1 / 2)
        [1 / 10] [9 / 10] [1 / 2] [0]).preds = [(0 : ℚ)] :=
  ⟨(threshold_pred_strict_inequality (fun _ _ => 0) (1 / 2) (1 / 2) (1 / 2)
      1 1 1 0).1.mpr (by norm_num),
   (threshold_pred_strict_inequality (fun _ _ => 0) (1 / 2) (1 / 2) (1 / 2)
      (1 / 10) (9 / 10) (1 / 2) 0).2⟩

/-- C5: in both fusion modes the total loss is
visual_loss + audio_loss + fusion_loss, the synchrony cross-entropy term
av_loss is added exactly when the sync flag is enabled, and when it is
disabled the total does not depend on av_loss at all. -/
theorem total_loss_decomposition (v_l a_l mm_l av_l av_l2 : ℚ) :
    totalLoss true v_l a_l mm_l av_l = a_l + v_l + mm_l + av_l ∧
    totalLoss false v_l a_l mm_l av_l = a_l + v_l + mm_l ∧
    totalLoss false v_l a_l mm_l av_l = totalLoss false v_l a_l mm_l av_l2 := by
  refine ⟨?_, ?_, rfl⟩ <;> simp [totalLoss] <;> ring

/-- C6: in learned-classifier fusion mode the two softmax outputs sum to
1, the final score is the softmax probability of the fake class (index 1)
and lies in [0, 1], and the prediction is the argmax of the softmax,
hence 0 or 1.  l0, l1 are the two logits produced by self.mm_classifier;
expf abstracts the exponential, which is everywhere positive. -/
theorem learned_fusion_softmax_props (expf : ℚ → ℚ)
    (hpos : ∀ x, 0 < expf x) (l0 l1 : ℚ) :
    (learnedFusion expf l0 l1).score0 + (learnedFusion expf l0 l1).score1 = 1 ∧
    0 ≤ (learnedFusion expf l0 l1).final_score ∧
    (learnedFusion expf l0 l1).final_score ≤ 1 ∧
    (learnedFusion expf l0 l1).final_score = (learnedFusion expf l0 l1).score1 ∧
    (learnedFusion expf l0 l1).pred =
      argmax2 (learnedFusion expf l0 l1).score0 (learnedFusion expf l0 l1).score1 ∧
    ((learnedFusion expf l0 l1).pred = 0 ∨ (learnedFusion expf l0 l1).pred = 1) := by
  have h0 := hpos l0
  have h1 := hpos l1
  have hs : 0 < expf l0 + expf l1 := add_pos h0 h1
  refine ⟨?_, ?_, ?_, rfl, rfl, ?_⟩
  · show expf l0 / (expf l0 + expf l1) + expf l1 / (expf l0 + expf l1) = 1
    rw [div_add_div_same, div_self (ne_of_gt hs)]
  · exact (div_pos h1 hs).le
  · show expf l1 / (expf l0 + expf l1) ≤ 1
    rw [div_le_one hs]
    linarith
  · show argmax2 _ _ = 0 ∨ argmax2 _ _ = 1
    unfold argmax2
    split <;> simp

/-- C6 witness: the softmax properties evaluated with the constant
positive exponential at the logits (0, 0). -/
theorem learned_fusion_softmax_props_witness :
    (∀ x : ℚ, 0 < (fun _ : ℚ => (1 : ℚ)) x) ∧
    ((learnedFusion (fun _ : ℚ => 1) 0 0).score0 +
        (learnedFusion (fun _ : ℚ => 1) 0 0).score1 = 1 ∧
      0 ≤ (learnedFusion (fun _ : ℚ => 1) 0 0).final_score ∧
      (learnedFusion (fun _ : ℚ => 1) 0 0).final_score ≤ 1 ∧
      (learnedFusion (fun _ : ℚ => 1) 0 0).final_score =
        (learnedFusion (fun _ : ℚ => 1) 0 0).score1 ∧
      (learnedFusion (fun _ : ℚ => 1) 0 0).pred =
        argmax2 (learnedFusion (fun _ : ℚ => 1) 0 0).score0
          (learnedFusion (fun _ : ℚ => 1) 0 0).score1 ∧
      ((learnedFusion (fun _ : ℚ => 1) 0 0).pred = 0 ∨
        (learnedFusion (fun _ : ℚ => 1) 0 0).pred = 1)) :=
  ⟨fun _ => one_pos,
    learned_fusion_softmax_props (fun _ => 1) (fun _ => one_pos) 0 0⟩

/-- C7: in threshold-fusion mode the training fusion loss is the
BCE-with-logits loss applied to the continuous pre-threshold average of
the remapped visual value, the remapped audio value and the raw av
logit against the multimodal label — the argument of the loss is the
underlying continuous value, with no binarization and no sigmoid applied
beforehand. -/
theorem threshold_train_loss_continuous_bce (bce : ℚ → ℚ → ℚ)
    (v_thr a_thr f_thr v_s a_s av m : ℚ) :
    (lossFnThreshold bce v_thr a_thr f_thr [v_s] [a_s] [av] [m]).mm_loss =
      bce (((v_s + 1) / 2 + (a_s + 1) / 2 + av) / 3) m ∧
    (lossFnThreshold bce v_thr a_thr f_thr [v_s] [a_s] [av] [m]).train_final_value
      = [((v_s + 1) / 2 + (a_s + 1) / 2 + av) / 3] := by
  constructor
  · simp [lossFnThreshold, Average]
  · rfl

/-- C8 counterexample: with per-batch losses 0 and 1 carried by batches of
sizes 1 and 3, the reported epoch loss is the unweighted mean 1/2, not
the size-weighted mean 3/4 that the claim requires for varying batch
sizes. -/
theorem epoch_loss_not_size_weighted_counterexample :
    epochLossSized [(0, 1), (1, 3)] = 1 / 2 ∧
    sizeWeightedMean [(0, 1), (1, 3)] = 3 / 4 ∧
    epochLossSized [(0, 1), (1, 3)] ≠ sizeWeightedMean [(0, 1), (1, 3)] := by
  refine ⟨?_, ?_, ?_⟩ <;>
    norm_num [epochLossSized, sizeWeightedMean, Average]

/-- C8 (amended): the reported epoch loss is always the unweighted
arithmetic mean of the per-batch scalar losses — batch sizes are never
consulted, so batches with equal losses and different sizes yield the
same epoch loss. -/
theorem epoch_loss_unweighted_mean (batches batches2 : List (ℚ × ℕ))
    (h : batches ≠ [])
    (hsame : batches.map Prod.fst = batches2.map Prod.fst) :
    epochLossSized batches =
      (batches.map Prod.fst).sum / (batches.length : ℚ) ∧
    epochLossSized batches = epochLossSized batches2 := by
  constructor
  · unfold epochLossSized Average
    rw [List.length_map]
  · unfold epochLossSized
    rw [hsame]

/-- C8 witness: the amended statement evaluated on two concrete epochs
with the same losses but different batch sizes. -/
theorem epoch_loss_unweighted_mean_witness :
    epochLossSized [(0, 1), (1, 3)] =
      (([((0 : ℚ), (1 : ℕ)), (1, 3)] : List (ℚ × ℕ)).map Prod.fst).sum /
        ((([((0 : ℚ), (1 : ℕ)), (1, 3)] : List (ℚ × ℕ)).length : ℚ)) ∧
    epochLossSized [(0, 1), (1, 3)] = epochLossSized [(0, 5), (1, 7)] :=
  epoch_loss_unweighted_mean [(0, 1), (1, 3)] [(0, 5), (1, 7)]
    (by decide) (by decide)

/-- C9: validation_epoch_end overwrites every best_* field
unconditionally with the current epoch's metrics — the result does not
depend on the previous best state, and afterwards each field equals the
metric recomputed from the current epoch's losses, predictions and
targets. -/
theorem best_fields_unconditionally_overwritten
    (auroc : List ℚ → List ℚ → ℚ) (old old2 : BestState)
    (losses preds targets : List ℚ) :
    validationEpochEndBest auroc old losses preds targets =
      validationEpochEndBest auroc old2 losses preds targets ∧
    (validationEpochEndBest auroc old losses preds targets).best_loss =
      Average losses ∧
    (validationEpochEndBest auroc old losses preds targets).best_acc =
      acc preds targets ∧
    (validationEpochEndBest auroc old losses preds targets).best_auroc =
      auroc preds targets ∧
    (validationEpochEndBest auroc old losses preds targets).best_real_f1score =
      f1score preds targets ∧
    (validationEpochEndBest auroc old losses preds targets).best_real_recall =
      recallM preds targets ∧
    (validationEpochEndBest auroc old losses preds targets).best_real_precision =
      precisions preds targets ∧
    (validationEpochEndBest auroc old losses preds targets).best_fake_f1score =
      f1score (Opposite preds) (Opposite targets) ∧
    (validationEpochEndBest auroc old losses preds targets).best_fake_recall =
      recallM (Opposite preds) (Opposite targets) ∧
    (validationEpochEndBest auroc old losses preds targets).best_fake_precision =
      precisions (Opposite preds) (Opposite targets) :=
  ⟨rfl, rfl, rfl, rfl, rfl, rfl, rfl, rfl, rfl, rfl⟩

/-- C10: Opposite performs no input validation — on the non-binary entry
1/2 it silently returns 1.5 (since 1/2 + 1 = 3/2 does not strictly exceed
the 3/2 cutoff), a value that is neither 0 nor 1. -/
theorem opposite_no_validation_on_half :
    Opposite [(1 : ℚ) / 2] = [3 / 2] ∧
    Opposite [(1 : ℚ) / 2] ≠ [0] ∧
    Opposite [(1 : ℚ) / 2] ≠ [1] := by
  refine ⟨?_, ?_, ?_⟩ <;> norm_num [Opposite]

end DFDetection
